import Mathlib

/-!
Verification development for the risk-assessment and auto-rebalancing core of
the xion-trade-miniapp backend.  The definitions below are a shallow embedding
of `app/services/portfolio_risk_service.py` and
`app/services/auto_rebalancer.py`.  Python floats are modelled as rationals,
Python `None` as `Option`, mutation of `self` as explicit state passing, and
the wall clock (`datetime.now()`) as an explicit `Time` argument.  Free-text
reason strings elide the numeric interpolation done by Python f-strings; the
numbers themselves are carried in the structured fields.
-/

/-- Risk levels, mirroring `RiskLevel` in portfolio_risk_service.py
(ordered LOW < MODERATE < HIGH < CRITICAL). -/
inductive RiskLevel where
  | low
  | moderate
  | high
  | critical
deriving DecidableEq, Repr

/-- Numeric rank realising the LOW < MODERATE < HIGH < CRITICAL order. -/
def RiskLevel.rank : RiskLevel → Nat
  | .low => 0
  | .moderate => 1
  | .high => 2
  | .critical => 3

/-- String value of a risk level, mirroring the Python enum values. -/
def RiskLevel.value : RiskLevel → String
  | .low => "low"
  | .moderate => "moderate"
  | .high => "high"
  | .critical => "critical"

/-- Recommended actions for a position, mirroring `PositionAction`. -/
inductive PositionAction where
  | hold
  | reduce
  | exit
  | add
  | reallocate
deriving DecidableEq, Repr

/-- String value of a position action, mirroring the Python enum values. -/
def PositionAction.value : PositionAction → String
  | .hold => "hold"
  | .reduce => "reduce"
  | .exit => "exit"
  | .add => "add"
  | .reallocate => "reallocate"

/-- Service-level risk thresholds set in `PortfolioRiskService.__init__`. -/
def stop_loss_threshold : ℚ := -1/10

/-- Take-profit threshold set in `PortfolioRiskService.__init__` (+20%). -/
def take_profit_threshold : ℚ := 1/5

/-- Maximum per-position concentration set in `__init__` (25%). -/
def max_position_concentration : ℚ := 1/4

/-- Input figures of a stored position as `_assess_position` reads them.
`quantity`, `average_entry_price` and `current_price` are nullable columns,
hence `Option`; the Python code coalesces them with `or`, which also treats
the value 0 as absent. -/
structure PositionInput where
  symbol : String
  symbol_id : ℤ
  quantity : Option ℚ
  average_entry_price : Option ℚ
  current_price : Option ℚ
deriving DecidableEq, Repr

/-- Python `x or d` on a nullable number: `d` when `x` is `None` or `0`. -/
def orFalsy (x : Option ℚ) (d : ℚ) : ℚ :=
  match x with
  | none => d
  | some v => if v = 0 then d else v

/-- Result record of `_assess_position`, mirroring the
`PositionRiskAssessment` dataclass (fields the constructor leaves at their
dataclass defaults are set to those defaults). -/
structure PositionRiskAssessment where
  symbol : String
  symbol_id : ℤ
  quantity : ℚ
  entry_price : ℚ
  current_price : ℚ
  market_value : ℚ
  unrealized_pnl : ℚ
  unrealized_pnl_pct : ℚ
  risk_level : RiskLevel
  volatility_score : ℚ
  concentration_risk : ℚ
  drawdown_from_high : ℚ
  days_held : ℤ
  recommended_action : PositionAction
  action_reason : String
  target_allocation : ℚ
  stop_loss_price : ℚ
  take_profit_price : ℚ
  confidence_score : ℚ
deriving DecidableEq, Repr

/-- Translation of `PortfolioRiskService._calculate_risk_level`, clause by
clause (first matching rule wins). -/
def calculate_risk_level (pnl_pct concentration : ℚ) : RiskLevel :=
  if pnl_pct < -20 then RiskLevel.critical
  else if pnl_pct < -10 then RiskLevel.high
  else if concentration > 40 then RiskLevel.high
  else if concentration > 25 then RiskLevel.moderate
  else if pnl_pct > 30 then RiskLevel.moderate
  else RiskLevel.low

/-- Translation of `PortfolioRiskService._determine_action`, clause by clause.
The reason strings elide the interpolated numbers. -/
def determine_action (pnl_pct concentration : ℚ) (risk_level : RiskLevel) :
    PositionAction × String :=
  if pnl_pct < stop_loss_threshold * 100 then
    (PositionAction.exit, "Stop loss triggered")
  else if pnl_pct > take_profit_threshold * 100 then
    (PositionAction.reduce, "Take profit opportunity")
  else if concentration > max_position_concentration * 100 then
    (PositionAction.reduce, "Position too concentrated")
  else if risk_level = RiskLevel.critical then
    (PositionAction.exit, "Critical risk level - recommend full exit")
  else if risk_level = RiskLevel.high then
    (PositionAction.reduce, "High risk level - consider reducing exposure")
  else
    (PositionAction.hold, "Position within acceptable risk parameters")

/-- Translation of `PortfolioRiskService._assess_position`.  The source contains no raise
statement and performs no input validation: it computes the assessment for
every input. -/
def assess_position (p : PositionInput) (total_portfolio_value : ℚ) :
    PositionRiskAssessment :=
  let quantity := p.quantity.getD 0
  let entry_price := p.average_entry_price.getD 0
  let current_price := orFalsy p.current_price entry_price
  let market_value := quantity * current_price
  let cost_basis := quantity * entry_price
  let unrealized_pnl := market_value - cost_basis
  let unrealized_pnl_pct :=
    if cost_basis > 0 then unrealized_pnl / cost_basis * 100 else 0
  let concentration :=
    if total_portfolio_value > 0 then market_value / total_portfolio_value * 100 else 0
  let risk_level := calculate_risk_level unrealized_pnl_pct concentration
  let ar := determine_action unrealized_pnl_pct concentration risk_level
  { symbol := p.symbol
    symbol_id := p.symbol_id
    quantity := quantity
    entry_price := entry_price
    current_price := current_price
    market_value := market_value
    unrealized_pnl := unrealized_pnl
    unrealized_pnl_pct := unrealized_pnl_pct
    risk_level := risk_level
    volatility_score := 0
    concentration_risk := concentration
    drawdown_from_high := 0
    days_held := 0
    recommended_action := ar.1
    action_reason := ar.2
    target_allocation := min concentration (max_position_concentration * 100)
    stop_loss_price := entry_price * (1 + stop_loss_threshold)
    take_profit_price := entry_price * (1 + take_profit_threshold)
    confidence_score := 7/10 }

/-- Error taxonomy named by the specification for malformed inputs and
execution failures. -/
inductive RiskError where
  | invalidInput
  | notFound
  | throttled
  | executionError
deriving DecidableEq, Repr

/-- The position-assessment entry point viewed in the error monad.  The
source `_assess_position` contains no raise statement, so the embedding is
total and always returns `Except.ok` of the computed assessment. -/
def assess_positionE (p : PositionInput) (total_portfolio_value : ℚ) :
    Except RiskError PositionRiskAssessment :=
  Except.ok (assess_position p total_portfolio_value)

/-- One entry of `suggested_actions`, mirroring the dict literals built by
`_generate_recommendations`. -/
structure SuggestedAction where
  priority : Nat
  symbol : Option String
  action : String
  reason : String
  current_value : ℚ
  pnl_pct : ℚ
  risk_level : String
deriving DecidableEq, Repr

/-- Result record of `assess_portfolio_risk`, mirroring the
`PortfolioRiskAssessment` dataclass. -/
structure PortfolioRiskAssessment where
  account_id : String
  total_value : ℚ
  cash_available : ℚ
  invested_value : ℚ
  total_unrealized_pnl : ℚ
  overall_risk_level : RiskLevel
  diversification_score : ℚ
  concentration_warning : Bool
  max_position_concentration : ℚ
  correlation_risk : ℚ
  positions : List PositionRiskAssessment
  rebalance_needed : Bool
  capital_at_risk : ℚ
  suggested_actions : List SuggestedAction
deriving DecidableEq, Repr

/-- Python `max(l)` on a nonempty list of rationals (0 for the empty list,
matching the `if concentrations else 0` guard in the source). -/
def listMaxQ : List ℚ → ℚ
  | [] => 0
  | x :: xs => xs.foldl max x

/-- Translation of `PortfolioRiskService._analyze_portfolio_composition`, as a pure update
of the assessment record (the Python method mutates a freshly built record
whose flag fields still hold their dataclass defaults). -/
def analyze_portfolio_composition (a : PortfolioRiskAssessment) :
    PortfolioRiskAssessment :=
  if a.positions.isEmpty then
    { a with diversification_score := 100, overall_risk_level := RiskLevel.low }
  else
    let n := a.positions.length
    let div0 : ℚ := if n ≥ 10 then 90 else if n ≥ 5 then 70 else if n ≥ 3 then 50 else 30
    let maxConc := listMaxQ (a.positions.map (fun p => p.concentration_risk))
    let warn := maxConc > max_position_concentration * 100
    let div1 := if warn then div0 - 20 else div0
    let nCrit := (a.positions.filter (fun p => p.risk_level = RiskLevel.critical)).length
    let nHigh := (a.positions.filter (fun p => p.risk_level = RiskLevel.high)).length
    let nMod := (a.positions.filter (fun p => p.risk_level = RiskLevel.moderate)).length
    let overall :=
      if nCrit > 0 then RiskLevel.critical
      else if (nHigh : ℚ) > (n : ℚ) * (3/10) then RiskLevel.high
      else if (nMod : ℚ) > (n : ℚ) * (1/2) then RiskLevel.moderate
      else RiskLevel.low
    let actionsNeeded :=
      a.positions.filter (fun p => p.recommended_action ≠ PositionAction.hold)
    { a with
      diversification_score := div1
      concentration_warning := warn
      max_position_concentration := maxConc
      overall_risk_level := overall
      rebalance_needed := actionsNeeded.length > 0
      capital_at_risk :=
        ((a.positions.filter (fun p => p.unrealized_pnl < 0)).map
          (fun p => |p.unrealized_pnl|)).sum }

/-- Priority table used as the first component of the sort key in
`_generate_recommendations`. -/
def priority_order : PositionAction → Nat
  | .exit => 1
  | .reduce => 2
  | .reallocate => 3
  | .add => 4
  | .hold => 5

/-- Sort-key comparison of `_generate_recommendations`: ascending in
`(priority_order action, -abs pnl_pct)` lexicographically. -/
def recKeyLe (p q : PositionRiskAssessment) : Bool :=
  decide (priority_order p.recommended_action < priority_order q.recommended_action ∨
    (priority_order p.recommended_action = priority_order q.recommended_action ∧
      -|p.unrealized_pnl_pct| ≤ -|q.unrealized_pnl_pct|))

/-- Stable insertion of an element after all elements it does not strictly
precede (used to realise the stable ascending sort of Python `sorted`). -/
def insertStable (le : α → α → Bool) (x : α) : List α → List α
  | [] => [x]
  | y :: ys => if le y x then y :: insertStable le x ys else x :: y :: ys

/-- Stable ascending sort realising Python `sorted`: elements are inserted
left to right, each landing after earlier elements with an equal key. -/
def sortStable (le : α → α → Bool) (l : List α) : List α :=
  l.foldl (fun acc x => insertStable le x acc) []

/-- Translation of `PortfolioRiskService._generate_recommendations`, as a pure update.
Note the priority of a position suggestion is its enumeration index in the
full sorted list (HOLD positions keep occupying indices), exactly as in the
Python `enumerate` loop. -/
def generate_recommendations (a : PortfolioRiskAssessment) :
    PortfolioRiskAssessment :=
  let sorted_positions := sortStable recKeyLe a.positions
  let posSugs :=
    (sorted_positions.enum.filter
      (fun ip => ip.2.recommended_action ≠ PositionAction.hold)).map
      (fun ip =>
        { priority := ip.1 + 1
          symbol := some ip.2.symbol
          action := ip.2.recommended_action.value
          reason := ip.2.action_reason
          current_value := ip.2.market_value
          pnl_pct := ip.2.unrealized_pnl_pct
          risk_level := ip.2.risk_level.value : SuggestedAction })
  let cash_pct :=
    if a.total_value > 0 then a.cash_available / a.total_value * 100 else 0
  let sugs :=
    if cash_pct > 30 then
      posSugs ++
        [{ priority := posSugs.length + 1
           symbol := none
           action := "deploy_cash"
           reason := "Cash position high - consider deploying to opportunities"
           current_value := a.cash_available
           pnl_pct := 0
           risk_level := "low" : SuggestedAction }]
    else posSugs
  { a with suggested_actions := sugs }

/-- Translation of `PortfolioRiskService.assess_portfolio_risk`, with the database reads
replaced by explicit arguments: the account cash balance (Python coalesces a
falsy balance to 0, an identity on rationals) and the list of stored
positions. -/
def assess_portfolio_risk (account_id : String) (balance : ℚ)
    (positions : List PositionInput) : PortfolioRiskAssessment :=
  let total_invested :=
    (positions.map (fun p =>
      p.quantity.getD 0 * orFalsy p.current_price (p.average_entry_price.getD 0))).sum
  let cash_available := balance
  let total_value := total_invested + cash_available
  let assessed :=
    (positions.filter (fun p =>
      match p.quantity with
      | some q => decide (q ≠ 0 ∧ q > 0)
      | none => false)).map
      (fun p => assess_position p total_value)
  let a0 : PortfolioRiskAssessment :=
    { account_id := account_id
      total_value := total_value
      cash_available := cash_available
      invested_value := total_invested
      total_unrealized_pnl := (assessed.map (fun p => p.unrealized_pnl)).sum
      overall_risk_level := RiskLevel.moderate
      diversification_score := 0
      concentration_warning := false
      max_position_concentration := 0
      correlation_risk := 0
      positions := assessed
      rebalance_needed := false
      capital_at_risk := 0
      suggested_actions := [] }
  generate_recommendations (analyze_portfolio_composition a0)

/-- Rebalancing actions, mirroring `RebalanceAction` in auto_rebalancer.py. -/
inductive RebalanceAction where
  | buy
  | sell
  | sell_all
  | no_action
deriving DecidableEq, Repr

/-- Alert types, mirroring `AlertType` of the continuous monitor as consumed
by the rebalancer. -/
inductive AlertType where
  | stop_loss_hit
  | take_profit
  | concentration
  | risk_threshold
  | idle_capital
deriving DecidableEq, Repr

/-- Alert urgencies, mirroring `ActionUrgency` (IMMEDIATE > HIGH > MEDIUM >
LOW). -/
inductive ActionUrgency where
  | immediate
  | high
  | medium
  | low
deriving DecidableEq, Repr

/-- A point of wall-clock time as the rebalancer observes it:
`datetime.now().date()` is the `day` ordinal and datetime subtraction in
minutes is the difference of the `minutes` coordinates. -/
structure Time where
  day : ℤ
  minutes : ℚ
deriving DecidableEq, Repr

/-- An alert from the continuous monitor.  The numeric fields model
`alert.data.get(key, 0)`: a key absent from the payload dict is the value
0 here. -/
structure Alert where
  alert_type : AlertType
  urgency : ActionUrgency
  symbol : Option String
  title : String
  message : String
  pnl_pct : ℚ
  current_price : ℚ
  concentration_pct : ℚ
  idle_pct : ℚ
deriving DecidableEq, Repr

/-- Configuration of the rebalancer, mirroring the `RebalanceConfig`
dataclass.  `max_daily_trades` is a count, hence `Nat`. -/
structure RebalanceConfig where
  enabled : Bool
  dry_run : Bool
  max_daily_trades : Nat
  max_single_trade_pct : ℚ
  min_trade_value : ℚ
  cooldown_minutes : ℚ
  auto_exit_loss_pct : ℚ
  auto_reduce_gain_pct : ℚ
  auto_reduce_concentration_pct : ℚ
  target_position_pct : ℚ
  max_position_pct : ℚ
  act_on_immediate : Bool
  act_on_high : Bool
  act_on_medium : Bool
  act_on_low : Bool
deriving DecidableEq, Repr

/-- The configuration built by `create_auto_rebalancer`, identical to the
dataclass defaults. -/
def defaultConfig : RebalanceConfig :=
  { enabled := true
    dry_run := true
    max_daily_trades := 10
    max_single_trade_pct := 25
    min_trade_value := 100
    cooldown_minutes := 15
    auto_exit_loss_pct := -15
    auto_reduce_gain_pct := 30
    auto_reduce_concentration_pct := 30
    target_position_pct := 5
    max_position_pct := 10
    act_on_immediate := true
    act_on_high := true
    act_on_medium := false
    act_on_low := false }

/-- A recorded trade execution, mirroring the `TradeExecution` dataclass. -/
structure TradeExecution where
  timestamp : Time
  symbol : String
  action : RebalanceAction
  quantity : ℚ
  price : ℚ
  total_value : ℚ
  reason : String
  alert_type : Option AlertType
  success : Bool
  error : Option String
deriving DecidableEq, Repr

/-- Mutable state of `AutoPortfolioRebalancer`: trade history, daily
counter, the per-symbol cooldown map (an association list looked up on the
most recent binding, modelling the Python dict), the last reset date and the
running flag. -/
structure RebState where
  trade_history : List TradeExecution
  daily_trade_count : Nat
  last_trade_time : List (String × Time)
  last_reset_date : ℤ
  running : Bool
deriving DecidableEq, Repr

/-- State produced by `__init__` (the running flag starts false; `start`
sets it). -/
def mkInitState (day : ℤ) : RebState :=
  { trade_history := []
    daily_trade_count := 0
    last_trade_time := []
    last_reset_date := day
    running := false }

/-- Effect of `start` on the rebalancer state: the running flag is set (the
monitor wiring is outside this state). -/
def startReb (s : RebState) : RebState := { s with running := true }

/-- Exact-key dict lookup in the per-symbol cooldown map. -/
def lookupLastTrade (m : List (String × Time)) (symbol : String) : Option Time :=
  (m.find? (fun p => p.1 == symbol)).map (fun p => p.2)

/-- Translation of `AutoPortfolioRebalancer._reset_daily_limits`. -/
def reset_daily_limits (now : Time) (s : RebState) : RebState :=
  if s.last_reset_date < now.day then
    { s with daily_trade_count := 0, last_reset_date := now.day }
  else s

/-- Result of `_can_trade`: the (possibly reset) state together with the
returned `(bool, message)` pair. -/
structure CanTradeResult where
  state : RebState
  allowed : Bool
  message : String
deriving DecidableEq, Repr

/-- Translation of `AutoPortfolioRebalancer._can_trade`.  The message strings elide the
interpolated minute count. -/
def can_trade (cfg : RebalanceConfig) (now : Time) (s : RebState)
    (symbol : String) : CanTradeResult :=
  let s1 := reset_daily_limits now s
  if s1.daily_trade_count ≥ cfg.max_daily_trades then
    { state := s1, allowed := false, message := "Daily trade limit reached" }
  else
    match lookupLastTrade s1.last_trade_time symbol with
    | some t =>
        if now.minutes - t.minutes < cfg.cooldown_minutes then
          { state := s1, allowed := false, message := "Cooldown active" }
        else { state := s1, allowed := true, message := "OK" }
    | none => { state := s1, allowed := true, message := "OK" }

/-- Per-call environment of `_execute_trade`: the positions the database
query returns (symbol ticker and held quantity), the outcome the
trade-persistence call would have (`_execute_real_trade` either returns or
raises), whether a trade-notification callback is registered, and whether
that callback raises when invoked. -/
structure ExecEnv where
  positions : List (String × ℚ)
  applyOutcome : Except String Unit
  hasCallback : Bool
  callbackRaises : Option String
deriving Repr

/-- The case-insensitive position lookup of `_execute_trade`. -/
def findPosition (positions : List (String × ℚ)) (symbol : String) :
    Option (String × ℚ) :=
  positions.find? (fun p => p.1.toUpper == symbol.toUpper)

/-- Python `float(position.quantity) if position else 0`. -/
def heldQuantity (pos : Option (String × ℚ)) : ℚ :=
  match pos with
  | some p => p.2
  | none => 0

/-- Result of one `_execute_trade` (and hence `_handle_alert`) call: the new
rebalancer state, the execution record appended to history if one was
created, an exception escaping to the caller (only the notification callback
can raise after the record is stored), and how many times the callback was
invoked. -/
structure ExecResult where
  state : RebState
  recorded : Option TradeExecution
  escaped : Option String
  callbackCalls : Nat
deriving Repr

/-- The result of every early return in `_execute_trade` and
`_handle_alert`: state possibly reset, nothing recorded, no exception, no
callback. -/
def noResult (s : RebState) : ExecResult :=
  { state := s, recorded := none, escaped := none, callbackCalls := 0 }

/-- The quantity-resolution lines of `_execute_trade`: full held quantity
for SELL_ALL, percentage of the held quantity for SELL, 0 otherwise, and
then — whenever a position exists — the cap at
`position.quantity * max_single_trade_pct / 100`, applied to every action
including SELL_ALL. -/
def resolveQuantity (pos : Option (String × ℚ)) (action : RebalanceAction)
    (quantity_pct : ℚ) (max_single_trade_pct : ℚ) : ℚ :=
  let q0 : ℚ :=
    if action = RebalanceAction.sell_all then heldQuantity pos
    else if action = RebalanceAction.sell then heldQuantity pos * (quantity_pct / 100)
    else 0
  if pos.isSome then min q0 (heldQuantity pos * (max_single_trade_pct / 100)) else q0

/-- The trade-value line of `_execute_trade`:
`quantity * price if price > 0 else 0`. -/
def tradeValue (quantity price : ℚ) : ℚ :=
  if price > 0 then quantity * price else 0

/-- The `error` field of the execution record: `None` in dry-run mode and
on a successful live persistence call, otherwise the message of the
exception `_execute_real_trade` raised (its body only acts — and hence can
only raise — for SELL-class actions). -/
def execError (dry_run : Bool) (action : RebalanceAction)
    (applyOutcome : Except String Unit) : Option String :=
  if dry_run then none
  else
    match (if action = RebalanceAction.sell ∨ action = RebalanceAction.sell_all then
        applyOutcome
      else Except.ok ()) with
    | Except.ok _ => none
    | Except.error m => some m

/-- Translation of `AutoPortfolioRebalancer._execute_trade`, with `datetime.now()` passed
as `now` and the database/callback collaborators as `env`. -/
def execute_trade (cfg : RebalanceConfig) (env : ExecEnv) (now : Time)
    (symbol : String) (action : RebalanceAction) (reason : String)
    (alert_type : Option AlertType) (price : ℚ) (quantity_pct : ℚ)
    (s : RebState) : ExecResult :=
  let c := can_trade cfg now s symbol
  if c.allowed = false then noResult c.state
  else
    let pos := findPosition env.positions symbol
    if pos = none ∧ (action = RebalanceAction.sell ∨ action = RebalanceAction.sell_all) then
      noResult c.state
    else
      let quantity : ℚ := resolveQuantity pos action quantity_pct cfg.max_single_trade_pct
      let trade_value : ℚ := tradeValue quantity price
      if trade_value < cfg.min_trade_value ∧ action ≠ RebalanceAction.sell_all then
        noResult c.state
      else
        let failMsg : Option String := execError cfg.dry_run action env.applyOutcome
        let execution : TradeExecution :=
          { timestamp := now
            symbol := symbol
            action := action
            quantity := quantity
            price := price
            total_value := trade_value
            reason := reason
            alert_type := alert_type
            success := failMsg.isNone
            error := failMsg }
        let s2 : RebState :=
          { c.state with
            trade_history := c.state.trade_history ++ [execution]
            daily_trade_count := c.state.daily_trade_count + 1
            last_trade_time := (symbol, now) :: c.state.last_trade_time }
        { state := s2
          recorded := some execution
          escaped := if env.hasCallback then env.callbackRaises else none
          callbackCalls := if env.hasCallback then 1 else 0 }

/-- The urgency gate at the top of `_handle_alert`. -/
def shouldAct (cfg : RebalanceConfig) (u : ActionUrgency) : Bool :=
  match u with
  | .immediate => cfg.act_on_immediate
  | .high => cfg.act_on_high
  | .medium => cfg.act_on_medium
  | .low => cfg.act_on_low

/-- Translation of `AutoPortfolioRebalancer._handle_alert` together with the five typed
handlers it dispatches to (`_handle_stop_loss`, `_handle_take_profit`,
`_handle_concentration`, `_handle_risk_threshold`, `_handle_idle_capital`),
inlined as in the source. -/
def handle_alert (cfg : RebalanceConfig) (env : ExecEnv) (now : Time)
    (a : Alert) (s : RebState) : ExecResult :=
  if ¬ s.running ∨ ¬ cfg.enabled then noResult s
  else if ¬ shouldAct cfg a.urgency then noResult s
  else
    match a.alert_type, a.symbol with
    | AlertType.stop_loss_hit, none => noResult s
    | AlertType.stop_loss_hit, some sym =>
        if a.pnl_pct < cfg.auto_exit_loss_pct then
          execute_trade cfg env now sym RebalanceAction.sell_all
            "Stop-loss triggered" (some AlertType.stop_loss_hit)
            a.current_price 100 s
        else
          execute_trade cfg env now sym RebalanceAction.sell
            "Reducing exposure due to loss" (some AlertType.stop_loss_hit)
            a.current_price 50 s
    | AlertType.take_profit, none => noResult s
    | AlertType.take_profit, some sym =>
        if a.pnl_pct > cfg.auto_reduce_gain_pct then
          execute_trade cfg env now sym RebalanceAction.sell
            "Taking profits" (some AlertType.take_profit)
            a.current_price (min 50 cfg.max_single_trade_pct) s
        else noResult s
    | AlertType.concentration, none => noResult s
    | AlertType.concentration, some sym =>
        if a.concentration_pct > cfg.auto_reduce_concentration_pct then
          execute_trade cfg env now sym RebalanceAction.sell
            "Reducing concentration" (some AlertType.concentration)
            a.current_price
            (min (((a.concentration_pct - cfg.target_position_pct) / a.concentration_pct) * 100)
              cfg.max_single_trade_pct) s
        else noResult s
    | AlertType.risk_threshold, none => noResult s
    | AlertType.risk_threshold, some sym =>
        execute_trade cfg env now sym RebalanceAction.sell_all
          "Critical risk threshold exceeded" (some AlertType.risk_threshold)
          a.current_price 100 s
    | AlertType.idle_capital, _ => noResult s

/-- The statistics dict returned by `get_daily_stats`.  `trades_remaining`
is an integer difference and can a priori be negative. -/
structure DailyStats where
  trades_today : Nat
  trades_remaining : ℤ
  total_volume : ℚ
  successful : Nat
  failed : Nat
  dry_run_mode : Bool
deriving DecidableEq, Repr

/-- Translation of `AutoPortfolioRebalancer.get_daily_stats` (it first lazily resets the
daily limits, mutating the state). -/
def get_daily_stats (cfg : RebalanceConfig) (now : Time) (s : RebState) :
    RebState × DailyStats :=
  let s1 := reset_daily_limits now s
  let today_trades := s1.trade_history.filter (fun t => t.timestamp.day == now.day)
  (s1,
    { trades_today := today_trades.length
      trades_remaining := (cfg.max_daily_trades : ℤ) - (s1.daily_trade_count : ℤ)
      total_volume :=
        ((today_trades.filter (fun t => t.success)).map (fun t => t.total_value)).sum
      successful := (today_trades.filter (fun t => t.success)).length
      failed := (today_trades.filter (fun t => !t.success)).length
      dry_run_mode := cfg.dry_run })

/-- One externally triggered operation on a rebalancer: an inbound alert
(with its collaborator environment and wall-clock time), a statistics query,
or `stop`. -/
inductive RebOp where
  | alertOp (env : ExecEnv) (now : Time) (a : Alert)
  | statsOp (now : Time)
  | stopOp

/-- Apply one operation to the state (the state component of its result). -/
def applyOp (cfg : RebalanceConfig) (s : RebState) : RebOp → RebState
  | RebOp.alertOp env now a => (handle_alert cfg env now a s).state
  | RebOp.statsOp now => (get_daily_stats cfg now s).1
  | RebOp.stopOp => { s with running := false }

/-- Run a sequence of operations left to right. -/
def runOps (cfg : RebalanceConfig) (s : RebState) (ops : List RebOp) : RebState :=
  ops.foldl (applyOp cfg) s

/-- All alert deliveries and statistics queries of an operation happen on
calendar day `d` (`stop` carries no clock). -/
def opOnDay (d : ℤ) : RebOp → Prop
  | RebOp.alertOp _ now _ => now.day = d
  | RebOp.statsOp now => now.day = d
  | RebOp.stopOp => True

/-- Induction invariant for the daily-cap theorem: relative to a baseline
history length `h0`, either trades have been recorded today (then their
number is dominated by the daily counter, the counter is within the cap and
the reset date has caught up with today), or none have been. -/
def DayInv (cfg : RebalanceConfig) (d : ℤ) (h0 : Nat) (s : RebState) : Prop :=
  (s.trade_history.length ≤ h0 + s.daily_trade_count ∧
      s.daily_trade_count ≤ cfg.max_daily_trades ∧
      (h0 < s.trade_history.length → d ≤ s.last_reset_date)) ∨
    s.trade_history.length ≤ h0

/-- Every alert of the operation arrives strictly within `cooldown_minutes`
of the reference time `t0` (statistics queries and `stop` are
unconstrained). -/
def opInWindow (cfg : RebalanceConfig) (t0 : Time) : RebOp → Prop
  | RebOp.alertOp _ now _ => now.minutes - t0.minutes < cfg.cooldown_minutes
  | RebOp.statsOp _ => True
  | RebOp.stopOp => True

/-- Cooldown invariant: the cooldown map still holds `t0` for `sym` and no
execution for `sym` has been appended beyond the baseline history. -/
def CooldownInv (sym : String) (t0 : Time) (hist0 : List TradeExecution)
    (s : RebState) : Prop :=
  lookupLastTrade s.last_trade_time sym = some t0 ∧
    s.trade_history.filter (fun e => e.symbol == sym) =
      hist0.filter (fun e => e.symbol == sym)

/-- Collaborator environment with one held position of 100 AAPL, a
successful persistence path and no registered callback. -/
def aaplEnv : ExecEnv := ⟨[("AAPL", 100)], Except.ok (), false, none⟩

/-- A RISK_THRESHOLD alert for AAPL at price 50. -/
def riskAlert : Alert :=
  ⟨AlertType.risk_threshold, ActionUrgency.immediate, some "AAPL",
    "Critical risk", "msg", 0, 50, 0, 0⟩

/-- A STOP_LOSS_HIT alert for AAPL with a 20% loss at price 50. -/
def stopLossAlert : Alert :=
  ⟨AlertType.stop_loss_hit, ActionUrgency.immediate, some "AAPL",
    "Stop loss", "msg", -20, 50, 0, 0⟩

/-- Fresh started rebalancer state on day 0. -/
def startedState : RebState := startReb (mkInitState 0)

/-- The execution record produced by the concrete RISK_THRESHOLD run. -/
def riskExec : TradeExecution :=
  ⟨⟨0, 0⟩, "AAPL", RebalanceAction.sell_all, 25, 50, 1250,
    "Critical risk threshold exceeded", some AlertType.risk_threshold, true, none⟩

/-- The live configuration used by `create_auto_rebalancer` when dry-run is
switched off. -/
def liveConfig : RebalanceConfig := { defaultConfig with dry_run := false }

/-- Collaborator environment whose persistence call fails with a database
error and whose notification callback is registered and well behaved. -/
def failEnv : ExecEnv := ⟨[("AAPL", 100)], Except.error "db down", true, none⟩

/-- The failed execution record of the concrete live run. -/
def failExec : TradeExecution :=
  ⟨⟨0, 0⟩, "AAPL", RebalanceAction.sell_all, 25, 50, 1250,
    "Critical risk threshold exceeded", some AlertType.risk_threshold, false,
    some "db down"⟩

/-- Collaborator environment whose registered notification callback raises. -/
def boomEnv : ExecEnv := ⟨[("AAPL", 100)], Except.ok (), true, some "boom"⟩

/-- Lazy reset never touches the trade history. -/
theorem reset_trade_history (now : Time) (s : RebState) :
    (reset_daily_limits now s).trade_history = s.trade_history := by
  unfold reset_daily_limits; split <;> rfl

/-- Lazy reset never touches the cooldown map. -/
theorem reset_last_trade_time (now : Time) (s : RebState) :
    (reset_daily_limits now s).last_trade_time = s.last_trade_time := by
  unfold reset_daily_limits; split <;> rfl

/-- Lazy reset keeps the counter or zeroes it. -/
theorem reset_count_cases (now : Time) (s : RebState) :
    (reset_daily_limits now s).daily_trade_count = s.daily_trade_count ∨
      (reset_daily_limits now s).daily_trade_count = 0 := by
  unfold reset_daily_limits; split
  · exact Or.inr rfl
  · exact Or.inl rfl

/-- After a lazy reset the stored reset date is at least the current day. -/
theorem reset_lrd_ge_day (now : Time) (s : RebState) :
    now.day ≤ (reset_daily_limits now s).last_reset_date := by
  unfold reset_daily_limits; split
  · simp
  · next h => simpa using le_of_not_lt (by simpa using h)

/-- A reset actually fires exactly when the date advanced. -/
theorem reset_count_zero_of_lt (now : Time) (s : RebState)
    (h : s.last_reset_date < now.day) :
    (reset_daily_limits now s).daily_trade_count = 0 := by
  unfold reset_daily_limits; simp [h]

/-- When the date has not advanced, the reset is the identity. -/
theorem reset_eq_of_ge (now : Time) (s : RebState)
    (h : now.day ≤ s.last_reset_date) : reset_daily_limits now s = s := by
  unfold reset_daily_limits
  simp [not_lt.mpr h]

/-- A bounded counter stays bounded through the lazy reset. -/
theorem reset_count_le (now : Time) (s : RebState) (m : Nat)
    (h : s.daily_trade_count ≤ m) :
    (reset_daily_limits now s).daily_trade_count ≤ m := by
  rcases reset_count_cases now s with hc | hc <;> omega

/-- The state returned by `_can_trade` is exactly the lazily reset state. -/
theorem can_trade_state (cfg : RebalanceConfig) (now : Time) (s : RebState)
    (symbol : String) :
    (can_trade cfg now s symbol).state = reset_daily_limits now s := by
  simp only [can_trade]
  split
  · rfl
  · split
    · split <;> rfl
    · rfl

/-- When `_can_trade` allows a trade, the daily counter is strictly below
the cap and the cooldown for the symbol has elapsed. -/
theorem can_trade_allowed_facts (cfg : RebalanceConfig) (now : Time)
    (s : RebState) (symbol : String)
    (h : (can_trade cfg now s symbol).allowed = true) :
    (reset_daily_limits now s).daily_trade_count < cfg.max_daily_trades ∧
      ∀ t, lookupLastTrade s.last_trade_time symbol = some t →
        cfg.cooldown_minutes ≤ now.minutes - t.minutes := by
  rw [← reset_last_trade_time now s]
  revert h
  simp only [can_trade]
  split
  · intro h; exact absurd h (by simp)
  · next hlt =>
    split
    · next t hmatch =>
      split
      · intro h; exact absurd h (by simp)
      · next hcool =>
        intro _
        refine ⟨lt_of_not_ge hlt, ?_⟩
        intro t2 ht2
        rw [hmatch] at ht2
        cases ht2
        exact le_of_not_lt hcool
    · next hnone =>
      intro _
      refine ⟨lt_of_not_ge hlt, ?_⟩
      intro t2 ht2
      rw [hnone] at ht2
      cases ht2

/-- On a found position, SELL_ALL resolves to the held quantity capped at
the single-trade limit. -/
theorem resolveQuantity_sell_all (ps : String) (q : ℚ) (qpct mpct : ℚ) :
    resolveQuantity (some (ps, q)) RebalanceAction.sell_all qpct mpct =
      min q (q * (mpct / 100)) := by
  simp [resolveQuantity, heldQuantity]

/-- Case analysis of `_execute_trade`: either an early return leaves the
lazily reset state untouched with nothing recorded, or exactly one
execution record is appended, the daily counter is incremented from a value
strictly below the cap, the cooldown map is stamped, and the callback makes
its single call. -/
theorem execute_trade_cases (cfg : RebalanceConfig) (env : ExecEnv)
    (now : Time) (symbol : String) (action : RebalanceAction) (reason : String)
    (atype : Option AlertType) (price : ℚ) (qpct : ℚ) (s : RebState) :
    execute_trade cfg env now symbol action reason atype price qpct s
        = noResult (reset_daily_limits now s) ∨
      ∃ e : TradeExecution,
        execute_trade cfg env now symbol action reason atype price qpct s =
          { state :=
              { reset_daily_limits now s with
                trade_history := (reset_daily_limits now s).trade_history ++ [e]
                daily_trade_count := (reset_daily_limits now s).daily_trade_count + 1
                last_trade_time := (symbol, now) :: (reset_daily_limits now s).last_trade_time }
            recorded := some e
            escaped := if env.hasCallback then env.callbackRaises else none
            callbackCalls := if env.hasCallback then 1 else 0 } ∧
        (reset_daily_limits now s).daily_trade_count < cfg.max_daily_trades ∧
        (∀ t, lookupLastTrade s.last_trade_time symbol = some t →
          cfg.cooldown_minutes ≤ now.minutes - t.minutes) ∧
        e.timestamp = now ∧ e.symbol = symbol ∧ e.action = action ∧
        e.price = price ∧ e.reason = reason ∧ e.alert_type = atype ∧
        e.error = execError cfg.dry_run action env.applyOutcome ∧
        e.success = e.error.isNone ∧
        e.quantity = resolveQuantity (findPosition env.positions symbol) action qpct
          cfg.max_single_trade_pct := by
  cases hA : (can_trade cfg now s symbol).allowed with
  | false =>
    refine Or.inl ?_
    simp only [execute_trade, hA, can_trade_state]
    simp
  | true =>
    have hfacts := can_trade_allowed_facts cfg now s symbol hA
    simp only [execute_trade, hA, can_trade_state]
    rw [if_neg (by simp)]
    split
    · exact Or.inl rfl
    · split
      · exact Or.inl rfl
      · exact Or.inr ⟨_, rfl, hfacts.1, hfacts.2, rfl, rfl, rfl, rfl, rfl, rfl, rfl, rfl, rfl⟩

/-- Case analysis of `_handle_alert`: an alert is either discarded with the
state untouched, or dispatched to `_execute_trade` on the symbol of the alert
with a SELL-class action. -/
theorem handle_alert_cases (cfg : RebalanceConfig) (env : ExecEnv)
    (now : Time) (a : Alert) (s : RebState) :
    handle_alert cfg env now a s = noResult s ∨
      ∃ sym act reason atype price qpct,
        (act = RebalanceAction.sell ∨ act = RebalanceAction.sell_all) ∧
        a.symbol = some sym ∧
        handle_alert cfg env now a s =
          execute_trade cfg env now sym act reason atype price qpct s := by
  unfold handle_alert
  split
  · exact Or.inl rfl
  · split
    · exact Or.inl rfl
    · split
      · exact Or.inl rfl
      · next sym h1 h2 =>
        split
        · exact Or.inr ⟨sym, _, _, _, _, _, Or.inr rfl, h2, rfl⟩
        · exact Or.inr ⟨sym, _, _, _, _, _, Or.inl rfl, h2, rfl⟩
      · exact Or.inl rfl
      · next sym h1 h2 =>
        split
        · exact Or.inr ⟨sym, _, _, _, _, _, Or.inl rfl, h2, rfl⟩
        · exact Or.inl rfl
      · exact Or.inl rfl
      · next sym h1 h2 =>
        split
        · exact Or.inr ⟨sym, _, _, _, _, _, Or.inl rfl, h2, rfl⟩
        · exact Or.inl rfl
      · exact Or.inl rfl
      · next sym h1 h2 =>
        exact Or.inr ⟨sym, _, _, _, _, _, Or.inr rfl, h2, rfl⟩
      · exact Or.inl rfl

/-- The state component of a statistics query is the lazily reset state. -/
theorem get_daily_stats_state (cfg : RebalanceConfig) (now : Time) (s : RebState) :
    (get_daily_stats cfg now s).1 = reset_daily_limits now s := rfl

/-- One operation keeps the daily counter within the cap. -/
theorem applyOp_count_le (cfg : RebalanceConfig) (s : RebState) (op : RebOp)
    (h : s.daily_trade_count ≤ cfg.max_daily_trades) :
    (applyOp cfg s op).daily_trade_count ≤ cfg.max_daily_trades := by
  cases op with
  | alertOp env now a =>
    rcases handle_alert_cases cfg env now a s with hc | ⟨sym, act, reason, atype, price, qpct, _, _, hc⟩
    · simp [applyOp, hc, noResult, h]
    · simp only [applyOp, hc]
      rcases execute_trade_cases cfg env now sym act reason atype price qpct s with
        he | ⟨e, he, hlt, _⟩
      · rw [he]; exact reset_count_le now s _ h
      · rw [he]; simpa using hlt
  | statsOp now =>
    simp only [applyOp, get_daily_stats_state]
    exact reset_count_le now s _ h
  | stopOp => simpa [applyOp] using h

/-- A whole run of operations keeps the daily counter within the cap. -/
theorem runOps_count_le (cfg : RebalanceConfig) (ops : List RebOp) (s : RebState)
    (h : s.daily_trade_count ≤ cfg.max_daily_trades) :
    (runOps cfg s ops).daily_trade_count ≤ cfg.max_daily_trades := by
  induction ops generalizing s with
  | nil => simpa [runOps] using h
  | cons op ops ih =>
    simp only [runOps, List.foldl_cons] at *
    exact ih _ (applyOp_count_le cfg s op h)

/-- One same-day operation preserves the daily-cap invariant. -/
theorem applyOp_dayInv (cfg : RebalanceConfig) (d : ℤ) (h0 : Nat) (s : RebState)
    (op : RebOp) (hop : opOnDay d op) (h : DayInv cfg d h0 s) :
    DayInv cfg d h0 (applyOp cfg s op) := by
  have hreset : ∀ now : Time, now.day = d → DayInv cfg d h0 (reset_daily_limits now s) := by
    intro now hday
    by_cases hlt : s.last_reset_date < now.day
    · right
      rw [reset_trade_history]
      rcases h with ⟨h1, h2, h3⟩ | h4
      · by_cases hh : h0 < s.trade_history.length
        · exact absurd (h3 hh) (by omega)
        · omega
      · exact h4
    · rw [reset_eq_of_ge now s (le_of_not_lt hlt)]
      exact h
  cases op with
  | alertOp env now a =>
    rcases handle_alert_cases cfg env now a s with hc | ⟨sym, act, reason, atype, price, qpct, _, _, hc⟩
    · simpa [applyOp, hc, noResult] using h
    · simp only [applyOp, hc]
      rcases execute_trade_cases cfg env now sym act reason atype price qpct s with
        he | ⟨e, he, hlt, _⟩
      · rw [he]
        exact hreset now hop
      · rw [he]
        left
        have hr := hreset now hop
        have hlen : (reset_daily_limits now s).trade_history.length ≤
            h0 + (reset_daily_limits now s).daily_trade_count := by
          rcases hr with ⟨g1, _, _⟩ | g4
          · exact g1
          · omega
        have hd : now.day = d := hop
        have hday : d ≤ (reset_daily_limits now s).last_reset_date := by
          have := reset_lrd_ge_day now s
          omega
        dsimp only
        refine ⟨?_, ?_, fun _ => hday⟩
        · simp only [List.length_append, List.length_cons, List.length_nil]
          omega
        · omega
  | statsOp now =>
    simp only [applyOp, get_daily_stats_state]
    exact hreset now hop
  | stopOp =>
    simpa [applyOp] using h

/-- A same-day run of operations preserves the daily-cap invariant. -/
theorem runOps_dayInv (cfg : RebalanceConfig) (d : ℤ) (h0 : Nat) (ops : List RebOp)
    (s : RebState) (hops : ∀ op ∈ ops, opOnDay d op) (h : DayInv cfg d h0 s) :
    DayInv cfg d h0 (runOps cfg s ops) := by
  induction ops generalizing s with
  | nil => simpa [runOps] using h
  | cons op ops ih =>
    simp only [runOps, List.foldl_cons] at *
    exact ih _ (fun o ho => hops o (List.mem_cons_of_mem _ ho))
      (applyOp_dayInv cfg d h0 s op (hops op (List.mem_cons_self op ops)) h)

/-- A lookup is unchanged by a binding for a different key. -/
theorem lookupLastTrade_cons_ne (sym sym2 : String) (t : Time)
    (m : List (String × Time)) (h : sym2 ≠ sym) :
    lookupLastTrade ((sym2, t) :: m) sym = lookupLastTrade m sym := by
  simp only [lookupLastTrade, List.find?]
  rw [show ((sym2, t).1 == sym) = false from beq_eq_false_iff_ne.mpr h]

/-- One in-window operation preserves the cooldown invariant. -/
theorem applyOp_cooldownInv (cfg : RebalanceConfig) (sym : String) (t0 : Time)
    (hist0 : List TradeExecution) (s : RebState) (op : RebOp)
    (hop : opInWindow cfg t0 op) (h : CooldownInv sym t0 hist0 s) :
    CooldownInv sym t0 hist0 (applyOp cfg s op) := by
  have hresetInv : ∀ now : Time, CooldownInv sym t0 hist0 (reset_daily_limits now s) := by
    intro now
    unfold CooldownInv
    rw [reset_last_trade_time, reset_trade_history]
    exact h
  cases op with
  | alertOp env now a =>
    rcases handle_alert_cases cfg env now a s with hc | ⟨sym2, act, reason, atype, price, qpct, _, _, hc⟩
    · simpa [applyOp, hc, noResult] using h
    · simp only [applyOp, hc]
      rcases execute_trade_cases cfg env now sym2 act reason atype price qpct s with
        he | ⟨e, he, _, hcool, _, hesym, _⟩
      · rw [he]
        exact hresetInv now
      · rw [he]
        by_cases hss : sym2 = sym
        · subst hss
          have := hcool t0 h.1
          have hwin : now.minutes - t0.minutes < cfg.cooldown_minutes := hop
          exact absurd this (not_le.mpr hwin)
        · constructor
          · dsimp only
            rw [lookupLastTrade_cons_ne sym sym2 now _ hss, reset_last_trade_time]
            exact h.1
          · dsimp only
            rw [List.filter_append, reset_trade_history]
            have : (fun e => e.symbol == sym) e = false := by
              simp only [hesym]
              exact beq_eq_false_iff_ne.mpr hss
            simp only [List.filter_cons, List.filter_nil, this]
            simpa using h.2
  | statsOp now =>
    simp only [applyOp, get_daily_stats_state]
    exact hresetInv now
  | stopOp =>
    simpa [applyOp] using h

/-- An in-window run of operations preserves the cooldown invariant. -/
theorem runOps_cooldownInv (cfg : RebalanceConfig) (sym : String) (t0 : Time)
    (hist0 : List TradeExecution) (ops : List RebOp) (s : RebState)
    (hops : ∀ op ∈ ops, opInWindow cfg t0 op) (h : CooldownInv sym t0 hist0 s) :
    CooldownInv sym t0 hist0 (runOps cfg s ops) := by
  induction ops generalizing s with
  | nil => simpa [runOps] using h
  | cons op ops ih =>
    simp only [runOps, List.foldl_cons] at *
    exact ih _ (fun o ho => hops o (List.mem_cons_of_mem _ ho))
      (applyOp_cooldownInv cfg sym t0 hist0 s op (hops op (List.mem_cons_self op ops)) h)

/-- C2 counterexample: with concentration fixed at 10, dropping the P&L
percentage from 35 to 0 strictly lowers the assigned risk level (MODERATE
down to LOW), so the claimed monotonicity fails as stated. -/
theorem spec_c2_monotone_counterexample :
    calculate_risk_level 35 10 = RiskLevel.moderate ∧
      calculate_risk_level 0 10 = RiskLevel.low ∧
      (0 : ℚ) < 35 ∧
      RiskLevel.rank (calculate_risk_level 0 10) <
        RiskLevel.rank (calculate_risk_level 35 10) := by
  refine ⟨by norm_num [calculate_risk_level], by norm_num [calculate_risk_level], by norm_num, ?_⟩
  norm_num [calculate_risk_level, RiskLevel.rank]

/-- C2 amended: on the region pnl ≤ 30 (below the profit-taking clause) the
risk level is antitone in the P&L percentage at fixed concentration. -/
theorem spec_c2_monotone_on_losses (c p1 p2 : ℚ) (hlt : p2 < p1) (hle : p1 ≤ 30) :
    RiskLevel.rank (calculate_risk_level p1 c) ≤
      RiskLevel.rank (calculate_risk_level p2 c) := by
  unfold calculate_risk_level
  split_ifs <;> simp_all [RiskLevel.rank] <;> linarith

/-- Witness instantiating the amended C2 monotonicity at concrete inputs. -/
theorem spec_c2_monotone_on_losses_witness :
    RiskLevel.rank (calculate_risk_level 1 0) ≤
      RiskLevel.rank (calculate_risk_level 0 0) :=
  spec_c2_monotone_on_losses 0 1 0 (by norm_num) (by norm_num)

/-- C4 counterexample: at quantity −5 the position assessment does not fail
with the invalid-input error — it returns a computed assessment whose
quantity field still carries the raw −5. -/
theorem spec_c4_no_validation_counterexample :
    assess_positionE ⟨"NEG", 1, some (-5), some 10, some 10⟩ 100 ≠
        Except.error RiskError.invalidInput ∧
      (assess_position ⟨"NEG", 1, some (-5), some 10, some 10⟩ 100).quantity = -5 := by
  constructor
  · simp [assess_positionE]
  · norm_num [assess_position]

/-- C4 amended: the assessment succeeds on every input, including those
with a negative quantity or negative prices; the raw figures are neither
rejected nor coerced. -/
theorem spec_c4_total_on_negative (sym : String) (sid : ℤ) (q ep cp tv : ℚ)
    (hneg : q < 0 ∨ ep < 0 ∨ cp < 0) :
    assess_positionE ⟨sym, sid, some q, some ep, some cp⟩ tv =
        Except.ok (assess_position ⟨sym, sid, some q, some ep, some cp⟩ tv) ∧
      (assess_position ⟨sym, sid, some q, some ep, some cp⟩ tv).quantity = q ∧
      (assess_position ⟨sym, sid, some q, some ep, some cp⟩ tv).entry_price = ep := by
  refine ⟨rfl, ?_, ?_⟩ <;> simp [assess_position]

/-- Witness instantiating the amended C4 at quantity −1. -/
theorem spec_c4_total_on_negative_witness :
    assess_positionE ⟨"NEG", 1, some (-1), some 10, some 10⟩ 100 =
        Except.ok (assess_position ⟨"NEG", 1, some (-1), some 10, some 10⟩ 100) ∧
      (assess_position ⟨"NEG", 1, some (-1), some 10, some 10⟩ 100).quantity = -1 ∧
      (assess_position ⟨"NEG", 1, some (-1), some 10, some 10⟩ 100).entry_price = 10 :=
  spec_c4_total_on_negative "NEG" 1 (-1) 10 10 100 (Or.inl (by norm_num))

/-- C9 confirmed: a zero cost basis yields a zero P&L percentage and a zero
total portfolio value yields a zero concentration — both division guards of
`_assess_position` short-circuit to 0. -/
theorem spec_c9_zero_denominators (p : PositionInput) (tv : ℚ) :
    (p.quantity.getD 0 * p.average_entry_price.getD 0 = 0 →
        (assess_position p tv).unrealized_pnl_pct = 0) ∧
      (tv = 0 → (assess_position p tv).concentration_risk = 0) := by
  constructor
  · intro h
    simp [assess_position, h]
  · intro h
    simp [assess_position, h]

/-- Witness instantiating C9 at a zero-quantity position inside a
zero-value portfolio. -/
theorem spec_c9_zero_denominators_witness :
    (assess_position ⟨"A", 1, some 0, some 10, some 10⟩ 0).unrealized_pnl_pct = 0 ∧
      (assess_position ⟨"A", 1, some 0, some 10, some 10⟩ 0).concentration_risk = 0 :=
  ⟨(spec_c9_zero_denominators ⟨"A", 1, some 0, some 10, some 10⟩ 0).1 (by norm_num),
    (spec_c9_zero_denominators ⟨"A", 1, some 0, some 10, some 10⟩ 0).2 rfl⟩

/-- C3 counterexample: a zero-position account with a positive cash balance
gets a non-empty suggested-actions list — `_generate_recommendations`
appends a `deploy_cash` entry because an all-cash portfolio has a cash
percentage of 100 > 30. -/
theorem spec_c3_empty_portfolio_counterexample :
    (assess_portfolio_risk "acct" 1000 []).suggested_actions.map SuggestedAction.action
        = ["deploy_cash"] ∧
      (assess_portfolio_risk "acct" 1000 []).suggested_actions ≠ [] := by
  constructor
  · simp [assess_portfolio_risk, generate_recommendations, analyze_portfolio_composition,
      sortStable, recKeyLe]
    norm_num
  · simp [assess_portfolio_risk, generate_recommendations, analyze_portfolio_composition,
      sortStable, recKeyLe]
    norm_num

/-- C3 amended: with zero positions the assessment always has
diversification 100, overall risk LOW and no rebalance flag; the
suggested-actions list is empty exactly when the cash balance is not
positive, and with positive cash it is the single `deploy_cash`
suggestion. -/
theorem spec_c3_empty_portfolio (aid : String) (balance : ℚ) :
    (assess_portfolio_risk aid balance []).diversification_score = 100 ∧
      (assess_portfolio_risk aid balance []).overall_risk_level = RiskLevel.low ∧
      (assess_portfolio_risk aid balance []).rebalance_needed = false ∧
      (balance ≤ 0 → (assess_portfolio_risk aid balance []).suggested_actions = []) ∧
      (0 < balance →
        (assess_portfolio_risk aid balance []).suggested_actions =
          [{ priority := 1, symbol := none, action := "deploy_cash",
             reason := "Cash position high - consider deploying to opportunities",
             current_value := balance, pnl_pct := 0, risk_level := "low" }]) := by
  by_cases hb : 0 < balance
  · have hdiv : balance / balance = 1 := div_self (ne_of_gt hb)
    refine ⟨?_, ?_, ?_, fun hle => absurd hb (not_lt.mpr hle), fun _ => ?_⟩ <;>
      simp [assess_portfolio_risk, generate_recommendations,
        analyze_portfolio_composition, sortStable, recKeyLe, hb, hdiv] <;>
      norm_num
  · have hng : ¬ (0 : ℚ) + balance > 0 := by
      simpa using hb
    refine ⟨?_, ?_, ?_, fun _ => ?_, fun hgt => absurd hgt hb⟩ <;>
      simp [assess_portfolio_risk, generate_recommendations,
        analyze_portfolio_composition, sortStable, recKeyLe, hng, hb] <;>
      norm_num

/-- Witness instantiating the amended C3 at a cash balance of 1000. -/
theorem spec_c3_empty_portfolio_witness :
    (assess_portfolio_risk "w" 1000 []).diversification_score = 100 ∧
      (assess_portfolio_risk "w" 1000 []).overall_risk_level = RiskLevel.low ∧
      (assess_portfolio_risk "w" 1000 []).rebalance_needed = false ∧
      (assess_portfolio_risk "w" 1000 []).suggested_actions =
        [{ priority := 1, symbol := none, action := "deploy_cash",
           reason := "Cash position high - consider deploying to opportunities",
           current_value := 1000, pnl_pct := 0, risk_level := "low" }] := by
  have h := spec_c3_empty_portfolio "w" 1000
  exact ⟨h.1, h.2.1, h.2.2.1, h.2.2.2.2 (by norm_num)⟩

/-- A lookup finds the binding just pushed for the same key. -/
theorem lookupLastTrade_cons_self (sym : String) (t : Time)
    (m : List (String × Time)) :
    lookupLastTrade ((sym, t) :: m) sym = some t := by
  simp [lookupLastTrade, List.find?]

/-- C1 counterexample: under the default configuration
(`max_single_trade_pct = 25`) a RISK_THRESHOLD alert on a held position of
100 records a SELL_ALL execution of quantity 25, not the full 100 — the
single-trade cap is applied to SELL_ALL as well. -/
theorem spec_c1_sell_all_counterexample :
    findPosition aaplEnv.positions "AAPL" = some ("AAPL", 100) ∧
      (handle_alert defaultConfig aaplEnv ⟨0, 0⟩ riskAlert startedState).recorded.map
          TradeExecution.action = some RebalanceAction.sell_all ∧
      (handle_alert defaultConfig aaplEnv ⟨0, 0⟩ riskAlert startedState).recorded.map
          TradeExecution.quantity = some 25 ∧
      (25 : ℚ) ≠ 100 := by
  refine ⟨by simp [findPosition, aaplEnv], ?_, ?_, by norm_num⟩ <;>
    simp [handle_alert, execute_trade, can_trade, reset_daily_limits, lookupLastTrade,
      findPosition, heldQuantity, resolveQuantity, tradeValue, execError, shouldAct,
      defaultConfig, aaplEnv, riskAlert, startedState, startReb, mkInitState, noResult] <;>
    norm_num

/-- C1 amended: a SELL_ALL resolved by `_execute_trade` (stop-loss beyond
the auto-exit threshold or any risk-threshold alert) on a held position of
quantity q records `min q (q * max_single_trade_pct / 100)` — the full held
quantity capped by the single-trade limit. -/
theorem spec_c1_sell_all_capped (cfg : RebalanceConfig) (env : ExecEnv)
    (now : Time) (a : Alert) (s : RebState) (sym ps : String) (q : ℚ)
    (e : TradeExecution)
    (hsym : a.symbol = some sym)
    (htype : a.alert_type = AlertType.risk_threshold ∨
      (a.alert_type = AlertType.stop_loss_hit ∧ a.pnl_pct < cfg.auto_exit_loss_pct))
    (hfind : findPosition env.positions sym = some (ps, q))
    (hrec : (handle_alert cfg env now a s).recorded = some e) :
    e.action = RebalanceAction.sell_all ∧
      e.quantity = min q (q * (cfg.max_single_trade_pct / 100)) := by
  by_cases hrun : ¬ s.running = true ∨ ¬ cfg.enabled = true
  · have hna : handle_alert cfg env now a s = noResult s := by
      unfold handle_alert; rw [if_pos hrun]
    rw [hna] at hrec
    simp [noResult] at hrec
  by_cases hact2 : ¬ shouldAct cfg a.urgency = true
  · have hna : handle_alert cfg env now a s = noResult s := by
      unfold handle_alert; rw [if_neg hrun, if_pos hact2]
    rw [hna] at hrec
    simp [noResult] at hrec
  have hexec : ∃ reason atype,
      handle_alert cfg env now a s =
        execute_trade cfg env now sym RebalanceAction.sell_all reason atype
          a.current_price 100 s := by
    rcases htype with h | ⟨h1, h2⟩
    · refine ⟨"Critical risk threshold exceeded", some AlertType.risk_threshold, ?_⟩
      unfold handle_alert
      rw [if_neg hrun, if_neg hact2]
      simp only [h, hsym]
    · refine ⟨"Stop-loss triggered", some AlertType.stop_loss_hit, ?_⟩
      unfold handle_alert
      rw [if_neg hrun, if_neg hact2]
      simp only [h1, hsym]
      rw [if_pos h2]
  obtain ⟨reason, atype, hexec⟩ := hexec
  rw [hexec] at hrec
  rcases execute_trade_cases cfg env now sym RebalanceAction.sell_all reason atype
      a.current_price 100 s with he | ⟨e2, he, _, _, _, _, hea, _, _, _, _, _, heq⟩
  · rw [he] at hrec
    simp [noResult] at hrec
  · rw [he] at hrec
    simp only [Option.some.injEq] at hrec
    subst hrec
    rw [hfind] at heq
    rw [resolveQuantity_sell_all] at heq
    exact ⟨hea, heq⟩

/-- The concrete RISK_THRESHOLD run records exactly `riskExec`. -/
theorem riskExec_recorded :
    (handle_alert defaultConfig aaplEnv ⟨0, 0⟩ riskAlert startedState).recorded =
      some riskExec := by
  simp [handle_alert, execute_trade, can_trade, reset_daily_limits, lookupLastTrade,
    findPosition, heldQuantity, resolveQuantity, tradeValue, execError, shouldAct,
    defaultConfig, aaplEnv, riskAlert, startedState, startReb, mkInitState, noResult,
    riskExec]
  norm_num

/-- Witness instantiating the amended C1: the concrete RISK_THRESHOLD run
records the capped quantity min 100 25. -/
theorem spec_c1_sell_all_capped_witness :
    riskExec.action = RebalanceAction.sell_all ∧
      riskExec.quantity = min 100 (100 * (defaultConfig.max_single_trade_pct / 100)) :=
  spec_c1_sell_all_capped defaultConfig aaplEnv ⟨0, 0⟩ riskAlert startedState "AAPL" "AAPL"
    100 riskExec rfl (Or.inl rfl) (by simp [findPosition, aaplEnv]) riskExec_recorded

/-- C5 confirmed: (a) across any same-day sequence of operations the trade
history grows by at most `max_daily_trades` records; (b) and (c) the daily
counter is reset to 0 by the first throttle check or statistics query whose
wall-clock date is past the stored reset date. -/
theorem spec_c5_daily_cap :
    (∀ (cfg : RebalanceConfig) (d : ℤ) (s0 : RebState) (ops : List RebOp),
        (∀ op ∈ ops, opOnDay d op) →
        (runOps cfg s0 ops).trade_history.length ≤
          s0.trade_history.length + cfg.max_daily_trades) ∧
      (∀ (cfg : RebalanceConfig) (now : Time) (s : RebState) (sym : String),
        s.last_reset_date < now.day →
        (can_trade cfg now s sym).state.daily_trade_count = 0) ∧
      (∀ (cfg : RebalanceConfig) (now : Time) (s : RebState),
        s.last_reset_date < now.day →
        ((get_daily_stats cfg now s).1).daily_trade_count = 0) := by
  refine ⟨?_, ?_, ?_⟩
  · intro cfg d s0 ops hops
    have h := runOps_dayInv cfg d s0.trade_history.length ops s0 hops (Or.inr le_rfl)
    rcases h with ⟨h1, h2, _⟩ | h4
    · omega
    · omega
  · intro cfg now s sym h
    rw [can_trade_state]
    exact reset_count_zero_of_lt now s h
  · intro cfg now s h
    rw [get_daily_stats_state]
    exact reset_count_zero_of_lt now s h

/-- Witness instantiating C5: a one-alert same-day run from the started
state grows the history by at most ten records, and a day-1 throttle check
and statistics query both zero the counter of the day-0 state. -/
theorem spec_c5_daily_cap_witness :
    (runOps defaultConfig startedState [RebOp.alertOp aaplEnv ⟨0, 0⟩ riskAlert]).trade_history.length ≤
        startedState.trade_history.length + defaultConfig.max_daily_trades ∧
      (can_trade defaultConfig ⟨1, 0⟩ startedState "AAPL").state.daily_trade_count = 0 ∧
      ((get_daily_stats defaultConfig ⟨1, 0⟩ startedState).1).daily_trade_count = 0 :=
  ⟨spec_c5_daily_cap.1 defaultConfig 0 startedState [RebOp.alertOp aaplEnv ⟨0, 0⟩ riskAlert]
      (by intro op hop; rw [List.mem_singleton] at hop; subst hop; rfl),
    spec_c5_daily_cap.2.1 defaultConfig ⟨1, 0⟩ startedState "AAPL" (by norm_num [startedState, startReb, mkInitState]),
    spec_c5_daily_cap.2.2 defaultConfig ⟨1, 0⟩ startedState (by norm_num [startedState, startReb, mkInitState])⟩

/-- C10 confirmed: from a freshly constructed rebalancer, after any
sequence of operations the daily counter never exceeds the cap — a trade is
recorded only after the throttle check passes strictly below it — and hence
the `trades_remaining` statistic is never negative. -/
theorem spec_c10_counter_bound (cfg : RebalanceConfig) (d : ℤ) (ops : List RebOp)
    (now : Time) :
    (runOps cfg (startReb (mkInitState d)) ops).daily_trade_count ≤ cfg.max_daily_trades ∧
      0 ≤ ((get_daily_stats cfg now (runOps cfg (startReb (mkInitState d)) ops)).2).trades_remaining := by
  have h1 : (runOps cfg (startReb (mkInitState d)) ops).daily_trade_count ≤ cfg.max_daily_trades :=
    runOps_count_le cfg ops _ (by simp [startReb, mkInitState])
  refine ⟨h1, ?_⟩
  have h2 := reset_count_le now (runOps cfg (startReb (mkInitState d)) ops) _ h1
  simp only [get_daily_stats]
  omega

/-- C6 confirmed: (general part) starting from any state whose cooldown map
stamps `sym` at `t0`, a run of operations all within `cooldown_minutes` of
`t0` appends no execution for `sym`; (scenario part) two STOP_LOSS_HIT
alerts for AAPL five minutes apart under the default 15-minute cooldown
record exactly one execution, the second being rejected by the throttle. -/
theorem spec_c6_cooldown :
    (∀ (cfg : RebalanceConfig) (sym : String) (t0 : Time) (s0 : RebState)
        (ops : List RebOp),
        lookupLastTrade s0.last_trade_time sym = some t0 →
        (∀ op ∈ ops, opInWindow cfg t0 op) →
        (runOps cfg s0 ops).trade_history.filter (fun e => e.symbol == sym) =
          s0.trade_history.filter (fun e => e.symbol == sym)) ∧
      ((runOps defaultConfig startedState
          [RebOp.alertOp aaplEnv ⟨0, 0⟩ stopLossAlert,
            RebOp.alertOp aaplEnv ⟨0, 5⟩ stopLossAlert]).trade_history.map
          TradeExecution.symbol = ["AAPL"] ∧
        (can_trade defaultConfig ⟨0, 5⟩
            (runOps defaultConfig startedState
              [RebOp.alertOp aaplEnv ⟨0, 0⟩ stopLossAlert]) "AAPL").allowed = false) := by
  refine ⟨?_, ?_, ?_⟩
  · intro cfg sym t0 s0 ops h0 hops
    exact (runOps_cooldownInv cfg sym t0 s0.trade_history ops s0 hops ⟨h0, rfl⟩).2
  · simp [runOps, applyOp, handle_alert, execute_trade, can_trade, reset_daily_limits,
      lookupLastTrade, findPosition, heldQuantity, resolveQuantity, tradeValue, execError,
      shouldAct, defaultConfig, aaplEnv, stopLossAlert, startedState, startReb, mkInitState,
      noResult]
    norm_num
  · simp [runOps, applyOp, handle_alert, execute_trade, can_trade, reset_daily_limits,
      lookupLastTrade, findPosition, heldQuantity, resolveQuantity, tradeValue, execError,
      shouldAct, defaultConfig, aaplEnv, stopLossAlert, startedState, startReb, mkInitState,
      noResult]
    norm_num

/-- Witness instantiating the general part of C6: with AAPL stamped at
minute 0, a single alert five minutes later appends no AAPL execution. -/
theorem spec_c6_cooldown_witness :
    (runOps defaultConfig
        { trade_history := [], daily_trade_count := 0,
          last_trade_time := [("AAPL", ⟨0, 0⟩)], last_reset_date := 0, running := true }
        [RebOp.alertOp aaplEnv ⟨0, 5⟩ stopLossAlert]).trade_history.filter
        (fun e => e.symbol == "AAPL") =
      List.filter (fun e => e.symbol == "AAPL")
        ({ trade_history := [], daily_trade_count := 0,
           last_trade_time := [("AAPL", ⟨0, 0⟩)], last_reset_date := 0,
           running := true : RebState }).trade_history :=
  spec_c6_cooldown.1 defaultConfig "AAPL" ⟨0, 0⟩ _ _
    (by simp [lookupLastTrade, List.find?])
    (by intro op hop; rw [List.mem_singleton] at hop; subst hop; norm_num [opInWindow, defaultConfig])

/-- C7 confirmed: in live mode, when the persistence call fails, the
handler still returns normally; the execution is recorded with
`success = false` and the error message captured, it is appended to the
history, the daily counter and per-symbol stamp are updated, and the
notification callback runs exactly once. -/
theorem spec_c7_failure_recorded (cfg : RebalanceConfig) (env : ExecEnv)
    (now : Time) (a : Alert) (s : RebState) (msg : String) (e : TradeExecution)
    (hdry : cfg.dry_run = false)
    (happly : env.applyOutcome = Except.error msg)
    (hcb : env.hasCallback = true)
    (hnr : env.callbackRaises = none)
    (hrec : (handle_alert cfg env now a s).recorded = some e) :
    e.success = false ∧ e.error = some msg ∧
      (handle_alert cfg env now a s).state.trade_history =
        (reset_daily_limits now s).trade_history ++ [e] ∧
      (handle_alert cfg env now a s).state.daily_trade_count =
        (reset_daily_limits now s).daily_trade_count + 1 ∧
      lookupLastTrade (handle_alert cfg env now a s).state.last_trade_time e.symbol =
        some now ∧
      (handle_alert cfg env now a s).callbackCalls = 1 ∧
      (handle_alert cfg env now a s).escaped = none := by
  rcases handle_alert_cases cfg env now a s with hc |
    ⟨sym, act, reason, atype, price, qpct, hor, hsym, hc⟩
  · rw [hc] at hrec
    simp [noResult] at hrec
  · rcases execute_trade_cases cfg env now sym act reason atype price qpct s with he |
      ⟨e2, he, hcnt, hcool, htime, hesym, hea, hprice, hreason, hatype, herr, hsucc, hq⟩
    · rw [hc, he] at hrec
      simp [noResult] at hrec
    · rw [hc, he] at hrec
      simp only [Option.some.injEq] at hrec
      subst hrec
      have herr2 : e2.error = some msg := by
        rw [herr]
        unfold execError
        rw [hdry]
        simp only [Bool.false_eq_true, if_false]
        rw [if_pos hor, happly]
      have hsucc2 : e2.success = false := by
        rw [hsucc, herr2]
        rfl
      rw [hc, he]
      refine ⟨hsucc2, herr2, rfl, rfl, ?_, ?_, ?_⟩
      · dsimp only
        rw [hesym]
        exact lookupLastTrade_cons_self sym now _
      · dsimp only
        rw [hcb]
        rfl
      · dsimp only
        rw [hcb, hnr]
        rfl

/-- The concrete live RISK_THRESHOLD run with failing persistence records
exactly `failExec`. -/
theorem failExec_recorded :
    (handle_alert liveConfig failEnv ⟨0, 0⟩ riskAlert startedState).recorded =
      some failExec := by
  simp [handle_alert, execute_trade, can_trade, reset_daily_limits, lookupLastTrade,
    findPosition, heldQuantity, resolveQuantity, tradeValue, execError, shouldAct,
    liveConfig, defaultConfig, failEnv, riskAlert, startedState, startReb, mkInitState,
    noResult, failExec]
  norm_num

/-- Witness instantiating C7 on the concrete live run with a failing
persistence call. -/
theorem spec_c7_failure_recorded_witness :
    failExec.success = false ∧ failExec.error = some "db down" ∧
      (handle_alert liveConfig failEnv ⟨0, 0⟩ riskAlert startedState).state.trade_history =
        (reset_daily_limits ⟨0, 0⟩ startedState).trade_history ++ [failExec] ∧
      (handle_alert liveConfig failEnv ⟨0, 0⟩ riskAlert startedState).state.daily_trade_count =
        (reset_daily_limits ⟨0, 0⟩ startedState).daily_trade_count + 1 ∧
      lookupLastTrade
        (handle_alert liveConfig failEnv ⟨0, 0⟩ riskAlert startedState).state.last_trade_time
        failExec.symbol = some ⟨0, 0⟩ ∧
      (handle_alert liveConfig failEnv ⟨0, 0⟩ riskAlert startedState).callbackCalls = 1 ∧
      (handle_alert liveConfig failEnv ⟨0, 0⟩ riskAlert startedState).escaped = none :=
  spec_c7_failure_recorded liveConfig failEnv ⟨0, 0⟩ riskAlert startedState "db down"
    failExec rfl rfl rfl rfl failExec_recorded

/-- C8 counterexample: when the notification callback raises, the exception
escapes `_handle_alert` to its caller (the `on_trade` invocation is not
wrapped in any try/except), even though a trade was recorded. -/
theorem spec_c8_callback_counterexample :
    (handle_alert defaultConfig boomEnv ⟨0, 0⟩ riskAlert startedState).escaped =
        some "boom" ∧
      (handle_alert defaultConfig boomEnv ⟨0, 0⟩ riskAlert startedState).recorded.isSome =
        true := by
  constructor <;>
    simp [handle_alert, execute_trade, can_trade, reset_daily_limits, lookupLastTrade,
      findPosition, heldQuantity, resolveQuantity, tradeValue, execError, shouldAct,
      defaultConfig, boomEnv, riskAlert, startedState, startReb, mkInitState, noResult] <;>
    norm_num

/-- C8 amended: a raising callback does not prevent the record from being
appended nor the throttle state from being updated — both happen before the
callback — but its exception does propagate to the caller of
`_handle_alert` instead of being swallowed. -/
theorem spec_c8_callback_amended (cfg : RebalanceConfig) (env : ExecEnv)
    (now : Time) (a : Alert) (s : RebState) (e : TradeExecution) (m : String)
    (hcb : env.hasCallback = true)
    (hraise : env.callbackRaises = some m)
    (hrec : (handle_alert cfg env now a s).recorded = some e) :
    (handle_alert cfg env now a s).state.trade_history =
        (reset_daily_limits now s).trade_history ++ [e] ∧
      (handle_alert cfg env now a s).state.daily_trade_count =
        (reset_daily_limits now s).daily_trade_count + 1 ∧
      lookupLastTrade (handle_alert cfg env now a s).state.last_trade_time e.symbol =
        some now ∧
      (handle_alert cfg env now a s).escaped = some m := by
  rcases handle_alert_cases cfg env now a s with hc |
    ⟨sym, act, reason, atype, price, qpct, hor, hsym, hc⟩
  · rw [hc] at hrec
    simp [noResult] at hrec
  · rcases execute_trade_cases cfg env now sym act reason atype price qpct s with he |
      ⟨e2, he, hcnt, hcool, htime, hesym, hea, hprice, hreason, hatype, herr, hsucc, hq⟩
    · rw [hc, he] at hrec
      simp [noResult] at hrec
    · rw [hc, he] at hrec
      simp only [Option.some.injEq] at hrec
      subst hrec
      rw [hc, he]
      refine ⟨rfl, rfl, ?_, ?_⟩
      · dsimp only
        rw [hesym]
        exact lookupLastTrade_cons_self sym now _
      · dsimp only
        rw [hcb, hraise]
        rfl

/-- The concrete dry run with a raising callback records exactly
`riskExec`. -/
theorem boom_recorded :
    (handle_alert defaultConfig boomEnv ⟨0, 0⟩ riskAlert startedState).recorded =
      some riskExec := by
  simp [handle_alert, execute_trade, can_trade, reset_daily_limits, lookupLastTrade,
    findPosition, heldQuantity, resolveQuantity, tradeValue, execError, shouldAct,
    defaultConfig, boomEnv, riskAlert, startedState, startReb, mkInitState, noResult,
    riskExec]
  norm_num

/-- Witness instantiating the amended C8 on the concrete raising-callback
run. -/
theorem spec_c8_callback_amended_witness :
    (handle_alert defaultConfig boomEnv ⟨0, 0⟩ riskAlert startedState).state.trade_history =
        (reset_daily_limits ⟨0, 0⟩ startedState).trade_history ++ [riskExec] ∧
      (handle_alert defaultConfig boomEnv ⟨0, 0⟩ riskAlert startedState).state.daily_trade_count =
        (reset_daily_limits ⟨0, 0⟩ startedState).daily_trade_count + 1 ∧
      lookupLastTrade
        (handle_alert defaultConfig boomEnv ⟨0, 0⟩ riskAlert startedState).state.last_trade_time
        riskExec.symbol = some ⟨0, 0⟩ ∧
      (handle_alert defaultConfig boomEnv ⟨0, 0⟩ riskAlert startedState).escaped = some "boom" :=
  spec_c8_callback_amended defaultConfig boomEnv ⟨0, 0⟩ riskAlert startedState riskExec
    "boom" rfl rfl boom_recorded
